import Mathlib

/-!
Verification of the payment-instruction pipeline
(parser, validator, executor, orchestrator) of the
payment-instruction-parser repository, as a shallow embedding.

JS numbers are modelled as rationals (amounts may be fractional or
negative at the parser stage), JS nullable string fields as
Option String, and JS record updates as functional record updates.
-/

namespace PaymentInstr

/-! ## JS string helpers -/

/-- Uppercase a string character by character (JS toUpperCase on the
ASCII keywords and currency codes used by this system). -/
def jsUpper (s : String) : String :=
  String.mk (s.toList.map Char.toUpper)

/-- Render a nullable string the way a JS template literal renders it:
a missing value prints as the text undefined. -/
def jsShowOpt : Option String → String
  | some s => s
  | none => "undefined"

/-- JS truthiness of a nullable string: null and the empty string are
falsy, every other string is truthy. -/
def optTruthy : Option String → Bool
  | none => false
  | some s => s ≠ ""

/-- Accumulator-based whitespace splitter over the character list. -/
def wordsAux : List Char → List Char → List String
  | [], cur => if cur = [] then [] else [String.mk cur.reverse]
  | c :: rest, cur =>
    if c.isWhitespace then
      if cur = [] then wordsAux rest []
      else String.mk cur.reverse :: wordsAux rest []
    else wordsAux rest (c :: cur)

/-- Whitespace-separated words of a string (empty pieces dropped). -/
def wordsOf (s : String) : List String := wordsAux s.toList []

/-- Join strings with a separator. -/
def joinSep (sep : String) : List String → String
  | [] => ""
  | [x] => x
  | x :: y :: xs => x ++ sep ++ joinSep sep (y :: xs)

/-- Embedding of the normalization in parseInstruction:
instruction.trim().replace of interior whitespace runs by single
spaces. The trim-then-collapse chain leaves exactly the whitespace
separated words joined by single spaces. -/
def normalizeInstr (s : String) : String := joinSep " " (wordsOf s)

/-- Embedding of normalized.split on a single space: for a nonempty
normalized string this is exactly the word list; JS splitting the
empty string yields a list holding one empty string. -/
def tokenizeInstr (s : String) : List String :=
  match wordsOf s with
  | [] => [""]
  | w :: ws => w :: ws

/-- Digit characters to the natural number they denote. -/
def digitsToNat (l : List Char) : Nat :=
  l.foldl (fun acc c => acc * 10 + (c.toNat - 48)) 0

/-- Parse a nonempty all-digit character list. -/
def parseNatDigits (l : List Char) : Option Nat :=
  if l ≠ [] ∧ l.all Char.isDigit then some (digitsToNat l) else none

/-- Rational denoted by an integer digit part and a fractional digit
part (the fractional part may be empty). -/
def ratOfParts (ip : List Char) (fp : List Char) : ℚ :=
  if fp = [] then (digitsToNat ip : ℚ)
  else mkRat (digitsToNat ip * 10 ^ fp.length + digitsToNat fp) (10 ^ fp.length)

/-- Embedding of the JS Number conversion as used on the amount token:
an optional sign followed by decimal digits with an optional fractional
part; anything else is NaN, modelled as none. Exotic Number forms
(exponents, hex, Infinity, interior whitespace) are not representable
as single instruction tokens produced by this tokenizer plus grammar
and are mapped to none as well. -/
def jsNumber (s : String) : Option ℚ :=
  let signAndRest : Bool × List Char :=
    match s.toList with
    | '-' :: r => (true, r)
    | '+' :: r => (false, r)
    | r => (false, r)
  let neg := signAndRest.1
  let rest := signAndRest.2
  let ip := rest.takeWhile Char.isDigit
  let tail := rest.dropWhile Char.isDigit
  match tail with
  | [] =>
    if ip = [] then none
    else some (if neg then -(ratOfParts ip []) else ratOfParts ip [])
  | '.' :: fp =>
    if fp.all Char.isDigit ∧ (ip ≠ [] ∨ fp ≠ []) then
      some (if neg then -(ratOfParts ip fp) else ratOfParts ip fp)
    else none
  | _ => none

/-! ## Data model -/

/-- Snapshot account as supplied by the caller (data model section 3 of
the spec; the shape used by the validator, the endpoint examples and
every test in the repository): identity field account_id, an integer
balance modelled as a rational JS number, and a currency code. -/
structure Account where
  account_id : String
  balance : ℚ
  currency : String
deriving DecidableEq, Repr

/-- Instruction record threaded through the pipeline. Nullable JS
fields are Option; status, status_reason and status_code are plain
strings as in the source. -/
structure Parsed where
  type : Option String
  amount : Option ℚ
  currency : Option String
  debit_account : Option String
  credit_account : Option String
  execute_by : Option String
  status : String
  status_reason : String
  status_code : String
deriving DecidableEq, Repr

/-- Result account view object built by executor.js. The source writes
the property id there (valued account.id), together with balance,
balance_before and uppercased currency. -/
structure AccountView where
  id : Option String
  balance : ℚ
  balance_before : ℚ
  currency : String
deriving DecidableEq, Repr

/-- Value returned by executeTransaction: the spread of the validated
record plus the attached accounts view. -/
structure ExecResult where
  record : Parsed
  accounts : List AccountView
deriving DecidableEq, Repr

/-- Request payload for the orchestrator. -/
structure RequestData where
  instruction : String
  accounts : List Account
deriving DecidableEq, Repr

/-- Calendar date triple (UTC). The current date enters the validator
as the year, month and day of the current UTC instant with time-of-day
discarded, exactly as isDateInFuture builds currentDate. -/
structure Date where
  year : Nat
  month : Nat
  day : Nat
deriving DecidableEq, Repr

/-! ## Parser (part_002, parser module) -/

/-- Embedding of findKeywordIndex: first index at or after startIndex
whose token uppercases to the keyword; JS returns -1 when absent,
modelled as none. -/
def findKeywordIndex (tokens : List String) (keyword : String) (startIndex : Nat) : Option Nat :=
  ((tokens.drop startIndex).findIdx? (fun t => jsUpper t = keyword)).map (· + startIndex)

/-- Initial result skeleton of parseDebitFormat. -/
def debitResult0 : Parsed :=
  { type := some "DEBIT"
    amount := none
    currency := none
    debit_account := none
    credit_account := none
    execute_by := none
    status := "failed"
    status_reason := ""
    status_code := "" }

/-- Initial result skeleton of parseCreditFormat. -/
def creditResult0 : Parsed :=
  { type := some "CREDIT"
    amount := none
    currency := none
    debit_account := none
    credit_account := none
    execute_by := none
    status := "failed"
    status_reason := ""
    status_code := "" }

/-- Embedding of parseDebitFormat: grammar
DEBIT amount currency FROM ACCOUNT id FOR CREDIT TO ACCOUNT id [ON date]. -/
def parseDebitFormat (tokens : List String) : Parsed :=
  if tokens.length < 11 then
    { debitResult0 with status_code := "SY03", status_reason := "DEBIT instruction is incomplete" }
  else
    match jsNumber (tokens.getD 1 "") with
    | none =>
      { debitResult0 with status_code := "SY03", status_reason := "Invalid or missing amount" }
    | some amount =>
      let currency := jsUpper (tokens.getD 2 "")
      if jsUpper (tokens.getD 3 "") ≠ "FROM" then
        { debitResult0 with
          amount := some amount
          currency := some currency
          status_code := "SY02"
          status_reason := "Expected FROM after currency, found: " ++ tokens.getD 3 "" }
      else if jsUpper (tokens.getD 4 "") ≠ "ACCOUNT" then
        { debitResult0 with
          amount := some amount
          currency := some currency
          status_code := "SY02"
          status_reason := "Expected ACCOUNT after FROM, found: " ++ tokens.getD 4 "" }
      else
        match findKeywordIndex tokens "FOR" 5 with
        | none =>
          { debitResult0 with
            amount := some amount
            currency := some currency
            status_code := "SY01"
            status_reason := "Missing FOR keyword" }
        | some forIndex =>
          let debitAccountTokens := (tokens.take forIndex).drop 5
          if debitAccountTokens = [] then
            { debitResult0 with
              amount := some amount
              currency := some currency
              status_code := "SY03"
              status_reason := "Missing debit account ID" }
          else
            let debitAccount := joinSep " " debitAccountTokens
            if (tokens.get? (forIndex + 1)).map jsUpper ≠ some "CREDIT" then
              { debitResult0 with
                amount := some amount
                currency := some currency
                debit_account := some debitAccount
                status_code := "SY02"
                status_reason := "Expected CREDIT after FOR, found: " ++ jsShowOpt (tokens.get? (forIndex + 1)) }
            else if (tokens.get? (forIndex + 2)).map jsUpper ≠ some "TO" then
              { debitResult0 with
                amount := some amount
                currency := some currency
                debit_account := some debitAccount
                status_code := "SY02"
                status_reason := "Expected TO after CREDIT, found: " ++ jsShowOpt (tokens.get? (forIndex + 2)) }
            else if (tokens.get? (forIndex + 3)).map jsUpper ≠ some "ACCOUNT" then
              { debitResult0 with
                amount := some amount
                currency := some currency
                debit_account := some debitAccount
                status_code := "SY02"
                status_reason := "Expected ACCOUNT after TO, found: " ++ jsShowOpt (tokens.get? (forIndex + 3)) }
            else
              let onIndex := findKeywordIndex tokens "ON" (forIndex + 4)
              let creditAccountEndIndex := onIndex.getD tokens.length
              let creditAccountTokens := (tokens.take creditAccountEndIndex).drop (forIndex + 4)
              if creditAccountTokens = [] then
                { debitResult0 with
                  amount := some amount
                  currency := some currency
                  debit_account := some debitAccount
                  status_code := "SY03"
                  status_reason := "Missing credit account ID" }
              else
                let creditAccount := joinSep " " creditAccountTokens
                match onIndex with
                | some oi =>
                  let dateTokens := tokens.drop (oi + 1)
                  if dateTokens = [] then
                    { debitResult0 with
                      amount := some amount
                      currency := some currency
                      debit_account := some debitAccount
                      credit_account := some creditAccount
                      status_code := "SY03"
                      status_reason := "Missing date after ON keyword" }
                  else
                    { debitResult0 with
                      amount := some amount
                      currency := some currency
                      debit_account := some debitAccount
                      credit_account := some creditAccount
                      execute_by := some (joinSep " " dateTokens)
                      status := "failed"
                      status_code := ""
                      status_reason := "" }
                | none =>
                  { debitResult0 with
                    amount := some amount
                    currency := some currency
                    debit_account := some debitAccount
                    credit_account := some creditAccount
                    execute_by := none
                    status := "failed"
                    status_code := ""
                    status_reason := "" }

/-- Embedding of parseCreditFormat: grammar
CREDIT amount currency TO ACCOUNT id FOR DEBIT FROM ACCOUNT id [ON date]. -/
def parseCreditFormat (tokens : List String) : Parsed :=
  if tokens.length < 11 then
    { creditResult0 with status_code := "SY03", status_reason := "CREDIT instruction is incomplete" }
  else
    match jsNumber (tokens.getD 1 "") with
    | none =>
      { creditResult0 with status_code := "SY03", status_reason := "Invalid or missing amount" }
    | some amount =>
      let currency := jsUpper (tokens.getD 2 "")
      if jsUpper (tokens.getD 3 "") ≠ "TO" then
        { creditResult0 with
          amount := some amount
          currency := some currency
          status_code := "SY02"
          status_reason := "Expected TO after currency, found: " ++ tokens.getD 3 "" }
      else if jsUpper (tokens.getD 4 "") ≠ "ACCOUNT" then
        { creditResult0 with
          amount := some amount
          currency := some currency
          status_code := "SY02"
          status_reason := "Expected ACCOUNT after TO, found: " ++ tokens.getD 4 "" }
      else
        match findKeywordIndex tokens "FOR" 5 with
        | none =>
          { creditResult0 with
            amount := some amount
            currency := some currency
            status_code := "SY01"
            status_reason := "Missing FOR keyword" }
        | some forIndex =>
          let creditAccountTokens := (tokens.take forIndex).drop 5
          if creditAccountTokens = [] then
            { creditResult0 with
              amount := some amount
              currency := some currency
              status_code := "SY03"
              status_reason := "Missing credit account ID" }
          else
            let creditAccount := joinSep " " creditAccountTokens
            if (tokens.get? (forIndex + 1)).map jsUpper ≠ some "DEBIT" then
              { creditResult0 with
                amount := some amount
                currency := some currency
                credit_account := some creditAccount
                status_code := "SY02"
                status_reason := "Expected DEBIT after FOR, found: " ++ jsShowOpt (tokens.get? (forIndex + 1)) }
            else if (tokens.get? (forIndex + 2)).map jsUpper ≠ some "FROM" then
              { creditResult0 with
                amount := some amount
                currency := some currency
                credit_account := some creditAccount
                status_code := "SY02"
                status_reason := "Expected FROM after DEBIT, found: " ++ jsShowOpt (tokens.get? (forIndex + 2)) }
            else if (tokens.get? (forIndex + 3)).map jsUpper ≠ some "ACCOUNT" then
              { creditResult0 with
                amount := some amount
                currency := some currency
                credit_account := some creditAccount
                status_code := "SY02"
                status_reason := "Expected ACCOUNT after FROM, found: " ++ jsShowOpt (tokens.get? (forIndex + 3)) }
            else
              let onIndex := findKeywordIndex tokens "ON" (forIndex + 4)
              let debitAccountEndIndex := onIndex.getD tokens.length
              let debitAccountTokens := (tokens.take debitAccountEndIndex).drop (forIndex + 4)
              if debitAccountTokens = [] then
                { creditResult0 with
                  amount := some amount
                  currency := some currency
                  credit_account := some creditAccount
                  status_code := "SY03"
                  status_reason := "Missing debit account ID" }
              else
                let debitAccount := joinSep " " debitAccountTokens
                match onIndex with
                | some oi =>
                  let dateTokens := tokens.drop (oi + 1)
                  if dateTokens = [] then
                    { creditResult0 with
                      amount := some amount
                      currency := some currency
                      debit_account := some debitAccount
                      credit_account := some creditAccount
                      status_code := "SY03"
                      status_reason := "Missing date after ON keyword" }
                  else
                    { creditResult0 with
                      amount := some amount
                      currency := some currency
                      debit_account := some debitAccount
                      credit_account := some creditAccount
                      execute_by := some (joinSep " " dateTokens)
                      status := "failed"
                      status_code := ""
                      status_reason := "" }
                | none =>
                  { creditResult0 with
                    amount := some amount
                    currency := some currency
                    debit_account := some debitAccount
                    credit_account := some creditAccount
                    execute_by := none
                    status := "failed"
                    status_code := ""
                    status_reason := "" }

/-- Error skeleton of parseInstruction. -/
def parseErrorResult : Parsed :=
  { type := none
    amount := none
    currency := none
    debit_account := none
    credit_account := none
    execute_by := none
    status := "failed"
    status_reason := ""
    status_code := "" }

/-- Embedding of parseInstruction: normalize, tokenize, dispatch on the
leading keyword. The try/catch wrapper of the source is unreachable for
string inputs (every array access in the parse routines is guarded or
optional-chained), so the total function here is its faithful image. -/
def parseInstruction (instruction : String) : Parsed :=
  let normalized := normalizeInstr instruction
  let tokens := tokenizeInstr instruction
  if tokens.length = 0 ∨ normalized = "" then
    { parseErrorResult with
      status_code := "SY03"
      status_reason := "Malformed instruction: unable to parse" }
  else
    let firstKeyword := jsUpper (tokens.getD 0 "")
    if firstKeyword = "DEBIT" then parseDebitFormat tokens
    else if firstKeyword = "CREDIT" then parseCreditFormat tokens
    else
      { parseErrorResult with
        status_code := "SY01"
        status_reason := "Expected instruction to start with DEBIT or CREDIT, found: " ++ tokens.getD 0 "" }

/-! ## Validator (part_002, validator module) -/

/-- Supported currencies from constants.js. -/
def SUPPORTED_CURRENCIES : List String := ["NGN", "USD", "GBP", "GHS"]

/-- Outcome of one leaf validation routine: either valid, or a failure
code together with a human-readable reason. -/
inductive VResult where
  | valid : VResult
  | invalid (code : String) (reason : String) : VResult
deriving DecidableEq, Repr

/-- Embedding of validateAmount: the amount must be present, an
integer (denominator one) and strictly positive. -/
def validateAmount : Option ℚ → VResult
  | none => .invalid "AM01" "Amount is required"
  | some a =>
    if ¬ a.den = 1 ∨ a ≤ 0 then
      .invalid "AM01" "Amount must be a positive integer"
    else .valid

/-- Embedding of validateCurrency: required (null and the empty string
are falsy) and, uppercased, a member of the supported set. -/
def validateCurrency : Option String → VResult
  | none => .invalid "CU02" "Currency is required"
  | some c =>
    if c = "" then .invalid "CU02" "Currency is required"
    else if ¬ SUPPORTED_CURRENCIES.contains (jsUpper c) then
      .invalid "CU02" "Unsupported currency. Only NGN, USD, GBP, and GHS are supported"
    else .valid

/-- Character class of VALID_ACCOUNT_ID_CHARS: ASCII letters, digits,
hyphen, period and the at symbol. -/
def validAccountChar (c : Char) : Bool :=
  c.isAlpha ∨ c.isDigit ∨ c = '-' ∨ c = '.' ∨ c = '@'

/-- Embedding of validateAccountIdFormat: required (null and the empty
string are falsy) and every character in the allowed class. -/
def validateAccountIdFormat : Option String → VResult
  | none => .invalid "AC04" "Account ID is required"
  | some s =>
    if s = "" then .invalid "AC04" "Account ID is required"
    else if ¬ s.toList.all validAccountChar then
      .invalid "AC04" ("Invalid account ID format: \x27" ++ s ++ "\x27 contains invalid characters")
    else .valid

/-- Splitter for the dash-separated date string (JS split keeps empty
pieces, unlike the whitespace splitter above). -/
def splitDashAux : List Char → List Char → List String
  | [], cur => [String.mk cur.reverse]
  | c :: rest, cur =>
    if c = '-' then String.mk cur.reverse :: splitDashAux rest []
    else splitDashAux rest (c :: cur)

/-- Embedding of dateString.split on a dash followed by Number on each
piece, demanding exactly three all-digit components. -/
def parseYMD (s : String) : Option (Nat × Nat × Nat) :=
  match splitDashAux s.toList [] with
  | [ys, ms, ds] =>
    match parseNatDigits ys.toList, parseNatDigits ms.toList, parseNatDigits ds.toList with
    | some y, some m, some d => some (y, m, d)
    | _, _, _ => none
  | _ => none

/-- Shape test of DATE_FORMAT_REGEX: four digits, dash, two digits,
dash, two digits. -/
def dateFormatMatches (s : String) : Bool :=
  match s.toList with
  | [y1, y2, y3, y4, h1, m1, m2, h2, d1, d2] =>
    y1.isDigit ∧ y2.isDigit ∧ y3.isDigit ∧ y4.isDigit ∧ h1 = '-' ∧
    m1.isDigit ∧ m2.isDigit ∧ h2 = '-' ∧ d1.isDigit ∧ d2.isDigit
  | _ => false

/-- Gregorian leap year rule. -/
def isLeapYear (y : Nat) : Bool :=
  (y % 4 = 0 ∧ ¬ y % 100 = 0) ∨ y % 400 = 0

/-- Days in a calendar month. -/
def daysInMonth (y m : Nat) : Nat :=
  if m = 2 then (if isLeapYear y then 29 else 28)
  else if m = 4 ∨ m = 6 ∨ m = 9 ∨ m = 11 then 30
  else if 1 ≤ m ∧ m ≤ 12 then 31
  else 0

/-- Embedding of validateDateFormat. The source checks the regex shape
and then rebuilds the date with Date.UTC and compares the UTC year,
month and day of the result with the parsed components. That round
trip succeeds exactly when the month is 1..12, the day is 1..the month
length, and the year is at least 100: Date.UTC remaps two-digit years
(0..99) to 1900..1999, and it normalizes month 0 or 13+, day 0, and
day overflow into neighbouring months, all of which make the rebuilt
components differ from the parsed ones. -/
def validateDateFormat (dateString : String) : VResult :=
  if ¬ dateFormatMatches dateString then
    .invalid "DT01" ("Invalid date format. Expected YYYY-MM-DD: \x27" ++ dateString ++ "\x27")
  else
    match parseYMD dateString with
    | some (y, m, d) =>
      if 100 ≤ y ∧ 1 ≤ m ∧ m ≤ 12 ∧ 1 ≤ d ∧ d ≤ daysInMonth y m then .valid
      else
        .invalid "DT01" ("Invalid date: \x27" ++ dateString ++ "\x27 does not represent a valid calendar date")
    | none =>
      .invalid "DT01" ("Invalid date: \x27" ++ dateString ++ "\x27 does not represent a valid calendar date")

/-- Lexicographic strictly-after on calendar date triples. For real
calendar dates this is exactly the order of the UTC millisecond values
built by Date.UTC, which is how the source compares targetDate with
currentDate. -/
def dateLexAfter (a b : Date) : Bool :=
  b.year < a.year ∨ (a.year = b.year ∧ (b.month < a.month ∨ (a.month = b.month ∧ b.day < a.day)))

/-- Embedding of isDateInFuture: parse the date string and compare with
the current UTC calendar date (time-of-day already discarded in the
today parameter, as the source discards it when building currentDate).
A string that does not parse as numbers yields an invalid Date in JS,
and every comparison with an invalid Date is false. -/
def isDateInFuture (dateString : String) (today : Date) : Bool :=
  match parseYMD dateString with
  | some (y, m, d) => dateLexAfter ⟨y, m, d⟩ today
  | none => false

/-- Property key used by the accountsMap for a nullable identifier: JS
coerces a null property key to the string null. -/
def accKey : Option String → String
  | some s => s
  | none => "null"

/-- Embedding of the accountsMap lookup. The map is built by forEach
assignment, so for duplicate identifiers the later account overwrites
the earlier one: lookup finds the last match. -/
def accountsMapGet (accounts : List Account) (key : Option String) : Option Account :=
  accounts.reverse.find? (fun a => a.account_id = accKey key)

/-- Failure record constructor shared by every validator exit. -/
def failWith (r : Parsed) (code reason : String) : Parsed :=
  { r with status := "failed", status_code := code, status_reason := reason }

/-- Embedding of validateInstruction: pass-through when already
terminal, then the ordered checks of the source with first-failure
short-circuit, then the pending/successful classification. -/
def validateInstruction (today : Date) (parsedData : Parsed) (accounts : List Account) : Parsed :=
  if parsedData.status_code ≠ "" then parsedData
  else
    match validateAmount parsedData.amount with
    | .invalid code reason => failWith parsedData code reason
    | .valid =>
    match validateCurrency parsedData.currency with
    | .invalid code reason => failWith parsedData code reason
    | .valid =>
    match validateAccountIdFormat parsedData.debit_account with
    | .invalid code reason => failWith parsedData code ("Debit account: " ++ reason)
    | .valid =>
    match validateAccountIdFormat parsedData.credit_account with
    | .invalid code reason => failWith parsedData code ("Credit account: " ++ reason)
    | .valid =>
    match accountsMapGet accounts parsedData.debit_account with
    | none =>
      failWith parsedData "AC03"
        ("Debit account \x27" ++ jsShowOpt parsedData.debit_account ++ "\x27 not found")
    | some debitAccount =>
    match accountsMapGet accounts parsedData.credit_account with
    | none =>
      failWith parsedData "AC03"
        ("Credit account \x27" ++ jsShowOpt parsedData.credit_account ++ "\x27 not found")
    | some creditAccount =>
    if parsedData.debit_account = parsedData.credit_account then
      failWith parsedData "AC02" "Debit and credit accounts cannot be the same"
    else if debitAccount.currency ≠ creditAccount.currency then
      failWith parsedData "CU01"
        ("Account currency mismatch: debit account uses " ++ debitAccount.currency ++
         ", credit account uses " ++ creditAccount.currency)
    else if parsedData.currency ≠ some debitAccount.currency then
      failWith parsedData "CU01"
        ("Account currency mismatch: instruction specifies " ++ jsShowOpt parsedData.currency ++
         ", accounts use " ++ debitAccount.currency)
    else
      match (if optTruthy parsedData.execute_by then
               validateDateFormat (parsedData.execute_by.getD "")
             else .valid) with
      | .invalid code reason => failWith parsedData code reason
      | .valid =>
        let isFutureTransaction :=
          optTruthy parsedData.execute_by &&
            isDateInFuture (parsedData.execute_by.getD "") today
        if ¬ isFutureTransaction ∧ debitAccount.balance < parsedData.amount.getD 0 then
          failWith parsedData "AC01"
            ("Insufficient funds in debit account: account undefined has " ++
             toString debitAccount.balance ++ " " ++ debitAccount.currency ++ ", needs " ++
             toString (parsedData.amount.getD 0) ++ " " ++ jsShowOpt parsedData.currency)
        else if isFutureTransaction then
          { parsedData with
            status := "pending"
            status_code := "AP02"
            status_reason := "Transaction scheduled for future execution" }
        else
          { parsedData with
            status := "successful"
            status_code := "AP00"
            status_reason := "Transaction executed successfully" }

/-! ## Executor (executor.js) -/

/-- Reading the property id from a snapshot account. The source reads
account.id in getInvolvedAccounts and in the balance-update branch, but
a snapshot Account carries only the identity field account_id (data
model, validator, endpoint and every test), so this property access
yields undefined, modelled as none. -/
def Account.jsId (_a : Account) : Option String := none

/-- JS falsiness of a nullable string field (used on the two account
identifier fields of the record). -/
def jsFalsy (x : Option String) : Bool := !(optTruthy x)

/-- Identifier set of the transaction: the debit and credit identifiers
with falsy values (null, empty string) filtered out, as in
[debit, credit].filter(Boolean). -/
def involvedIdsList (v : Parsed) : List String :=
  ([v.debit_account, v.credit_account].filterMap (fun x => x)).filter (fun s => s ≠ "")

/-- Embedding of getInvolvedAccounts: empty when both identifiers are
falsy, otherwise the snapshot filtered (in snapshot order) to the
accounts whose id property is in the identifier set. An undefined id
is never a member of a set of strings. -/
def getInvolvedAccounts (validatedData : Parsed) (accounts : List Account) : List Account :=
  if jsFalsy validatedData.debit_account ∧ jsFalsy validatedData.credit_account then []
  else
    accounts.filter (fun account =>
      match account.jsId with
      | some s => (involvedIdsList validatedData).contains s
      | none => false)

/-- Strict JS equality between the id property of an account (undefined
when absent) and a nullable string field of the record: undefined is
strictly equal to neither null nor any string. -/
def idMatches (account : Account) (field : Option String) : Bool :=
  match account.jsId, field with
  | some x, some y => x = y
  | _, _ => false

/-- Embedding of executeTransaction: for pending or failed records the
involved accounts are projected unchanged; otherwise each involved
account gets a new balance according to its role, decided by comparing
its id property with the debit and credit identifiers. In both
branches the result objects are fresh and the record fields are spread
through unchanged. -/
def executeTransaction (validatedData : Parsed) (accounts : List Account) : ExecResult :=
  let involvedAccounts := getInvolvedAccounts validatedData accounts
  if validatedData.status = "pending" ∨ validatedData.status = "failed" then
    { record := validatedData
      accounts := involvedAccounts.map (fun account =>
        { id := account.jsId
          balance := account.balance
          balance_before := account.balance
          currency := jsUpper account.currency }) }
  else
    { record := validatedData
      accounts := involvedAccounts.map (fun account =>
        let balanceBefore := account.balance
        let newBalance :=
          if idMatches account validatedData.debit_account then
            account.balance - validatedData.amount.getD 0
          else if idMatches account validatedData.credit_account then
            account.balance + validatedData.amount.getD 0
          else account.balance
        { id := account.jsId
          balance := newBalance
          balance_before := balanceBefore
          currency := jsUpper account.currency }) }

/-- State-passing form of executeTransaction, making the post-call
account snapshot explicit. The source allocates fresh objects in map
and never assigns to a property of an input account object, so the
translated post-state is the input snapshot itself. -/
def executeTransactionS (validatedData : Parsed) (accounts : List Account) :
    ExecResult × List Account :=
  (executeTransaction validatedData accounts, accounts)

/-- Embedding of processPaymentInstruction: parse, validate, execute. -/
def processPaymentInstruction (today : Date) (requestData : RequestData) : ExecResult :=
  let parsedData := parseInstruction requestData.instruction
  let validatedData := validateInstruction today parsedData requestData.accounts
  executeTransaction validatedData requestData.accounts

/-! ## Ordered-rule presentation of the validator

The spec describes the validator as an ordered list of rules evaluated
in sequence with first-failure short-circuit. The following definitions
state that presentation directly, to be compared with the if-chain
embedding validateInstruction above. -/

/-- One rule of the ordered list: whether it fails on the given input,
and the code and reason it would report. -/
structure RuleOutcome where
  fails : Bool
  code : String
  reason : String
deriving DecidableEq, Repr

/-- Rule outcome of a leaf validation routine, with a wrapper for the
reason text. -/
def ruleOfVResult (r : VResult) (defaultCode : String) (wrap : String → String) : RuleOutcome :=
  match r with
  | .invalid c rsn => { fails := true, code := c, reason := wrap rsn }
  | .valid => { fails := false, code := defaultCode, reason := "" }

/-- Placeholder account used below when a lookup failed; its fields are
never reported because an earlier existence rule fails first. -/
def noAccount : Account := { account_id := "", balance := 0, currency := "" }

/-- The validator rules, in the order the spec fixes: amount, currency
supported, debit format, credit format, debit existence, credit
existence, same account, account currency match, instruction currency
match, date format, funds sufficiency (skipped when future-dated). -/
def orderedRuleOutcomes (today : Date) (r : Parsed) (accounts : List Account) : List RuleOutcome :=
  [ ruleOfVResult (validateAmount r.amount) "AM01" (fun s => s)
  , ruleOfVResult (validateCurrency r.currency) "CU02" (fun s => s)
  , ruleOfVResult (validateAccountIdFormat r.debit_account) "AC04" (fun s => "Debit account: " ++ s)
  , ruleOfVResult (validateAccountIdFormat r.credit_account) "AC04" (fun s => "Credit account: " ++ s)
  , { fails := (accountsMapGet accounts r.debit_account).isNone
      code := "AC03"
      reason := "Debit account \x27" ++ jsShowOpt r.debit_account ++ "\x27 not found" }
  , { fails := (accountsMapGet accounts r.credit_account).isNone
      code := "AC03"
      reason := "Credit account \x27" ++ jsShowOpt r.credit_account ++ "\x27 not found" }
  , { fails := r.debit_account = r.credit_account
      code := "AC02"
      reason := "Debit and credit accounts cannot be the same" }
  , { fails := ((accountsMapGet accounts r.debit_account).getD noAccount).currency ≠
        ((accountsMapGet accounts r.credit_account).getD noAccount).currency
      code := "CU01"
      reason := "Account currency mismatch: debit account uses " ++
        ((accountsMapGet accounts r.debit_account).getD noAccount).currency ++
        ", credit account uses " ++
        ((accountsMapGet accounts r.credit_account).getD noAccount).currency }
  , { fails := r.currency ≠ some ((accountsMapGet accounts r.debit_account).getD noAccount).currency
      code := "CU01"
      reason := "Account currency mismatch: instruction specifies " ++ jsShowOpt r.currency ++
        ", accounts use " ++ ((accountsMapGet accounts r.debit_account).getD noAccount).currency }
  , ruleOfVResult
      (if optTruthy r.execute_by then validateDateFormat (r.execute_by.getD "") else .valid)
      "DT01" (fun s => s)
  , { fails := ¬ (optTruthy r.execute_by &&
          isDateInFuture (r.execute_by.getD "") today) = true ∧
        ((accountsMapGet accounts r.debit_account).getD noAccount).balance < r.amount.getD 0
      code := "AC01"
      reason := "Insufficient funds in debit account: account undefined has " ++
        toString ((accountsMapGet accounts r.debit_account).getD noAccount).balance ++ " " ++
        ((accountsMapGet accounts r.debit_account).getD noAccount).currency ++ ", needs " ++
        toString (r.amount.getD 0) ++ " " ++ jsShowOpt r.currency } ]

/-- The spec presentation of the validator: pass through a terminal
record, otherwise report the first failing rule of the ordered list,
otherwise classify as pending (future-dated) or successful. -/
def runValidatorSpec (today : Date) (r : Parsed) (accounts : List Account) : Parsed :=
  if r.status_code ≠ "" then r
  else
    match (orderedRuleOutcomes today r accounts).find? (fun c => c.fails) with
    | some c => failWith r c.code c.reason
    | none =>
      if optTruthy r.execute_by && isDateInFuture (r.execute_by.getD "") today then
        { r with
          status := "pending"
          status_code := "AP02"
          status_reason := "Transaction scheduled for future execution" }
      else
        { r with
          status := "successful"
          status_code := "AP00"
          status_reason := "Transaction executed successfully" }

/-! ## Shape lemmas for the leaf validators -/

/-- Every failure of validateAmount carries code AM01. -/
theorem validateAmount_shape (a : Option ℚ) :
    validateAmount a = .valid ∨ ∃ rsn, validateAmount a = .invalid "AM01" rsn := by
  cases a with
  | none => exact Or.inr ⟨_, rfl⟩
  | some q =>
    by_cases hq : ¬ q.den = 1 ∨ q ≤ 0
    · exact Or.inr ⟨_, by simp only [validateAmount, if_pos hq]; rfl⟩
    · exact Or.inl (by simp only [validateAmount, if_neg hq])

/-- Every failure of validateCurrency carries code CU02. -/
theorem validateCurrency_shape (c : Option String) :
    validateCurrency c = .valid ∨ ∃ rsn, validateCurrency c = .invalid "CU02" rsn := by
  cases c with
  | none => exact Or.inr ⟨_, rfl⟩
  | some s =>
    by_cases hs : s = ""
    · exact Or.inr ⟨_, by simp only [validateCurrency, if_pos hs]; rfl⟩
    · by_cases hm : ¬ SUPPORTED_CURRENCIES.contains (jsUpper s)
      · exact Or.inr ⟨_, by simp only [validateCurrency, if_neg hs, if_pos hm]; rfl⟩
      · exact Or.inl (by simp only [validateCurrency, if_neg hs, if_neg hm])

/-- Every failure of validateAccountIdFormat carries code AC04. -/
theorem validateAccountIdFormat_shape (x : Option String) :
    validateAccountIdFormat x = .valid ∨ ∃ rsn, validateAccountIdFormat x = .invalid "AC04" rsn := by
  cases x with
  | none => exact Or.inr ⟨_, rfl⟩
  | some s =>
    by_cases hs : s = ""
    · exact Or.inr ⟨_, by simp only [validateAccountIdFormat, if_pos hs]; rfl⟩
    · by_cases hc : ¬ s.toList.all validAccountChar
      · exact Or.inr ⟨_, by simp only [validateAccountIdFormat, if_neg hs, if_pos hc]; rfl⟩
      · exact Or.inl (by simp only [validateAccountIdFormat, if_neg hs, if_neg hc])

/-- Every failure of validateDateFormat carries code DT01. -/
theorem validateDateFormat_shape (s : String) :
    validateDateFormat s = .valid ∨ ∃ rsn, validateDateFormat s = .invalid "DT01" rsn := by
  unfold validateDateFormat
  split
  · exact Or.inr ⟨_, rfl⟩
  · split
    · split
      · exact Or.inl rfl
      · exact Or.inr ⟨_, rfl⟩
    · exact Or.inr ⟨_, rfl⟩

/-- Every failure of the conditional date check carries code DT01. -/
theorem dateCheck_shape (e : Option String) :
    (if optTruthy e then validateDateFormat (e.getD "") else .valid) = .valid ∨
    ∃ rsn, (if optTruthy e then validateDateFormat (e.getD "") else .valid) = .invalid "DT01" rsn := by
  by_cases h : optTruthy e
  · simpa only [if_pos h] using validateDateFormat_shape (e.getD "")
  · exact Or.inl (by rw [if_neg h])

/-- The if-chain validator equals its ordered-rule-list presentation:
checks run in the fixed order with first-failure short-circuit. -/
theorem validateInstruction_eq_runValidatorSpec (today : Date) (r : Parsed)
    (accounts : List Account) :
    validateInstruction today r accounts = runValidatorSpec today r accounts := by
  unfold validateInstruction runValidatorSpec orderedRuleOutcomes
  by_cases h0 : r.status_code ≠ ""
  · rw [if_pos h0, if_pos h0]
  · rw [if_neg h0, if_neg h0]
    rcases validateAmount_shape r.amount with hA | ⟨rsnA, hA⟩ <;>
      simp only [hA, ruleOfVResult, List.find?]
    rcases validateCurrency_shape r.currency with hC | ⟨rsnC, hC⟩ <;>
      simp only [hC, ruleOfVResult, List.find?]
    rcases validateAccountIdFormat_shape r.debit_account with hD | ⟨rsnD, hD⟩ <;>
      simp only [hD, ruleOfVResult, List.find?]
    rcases validateAccountIdFormat_shape r.credit_account with hE | ⟨rsnE, hE⟩ <;>
      simp only [hE, ruleOfVResult, List.find?]
    cases hDA : accountsMapGet accounts r.debit_account with
    | none => simp [hDA, List.find?]
    | some debitAccount =>
      cases hCA : accountsMapGet accounts r.credit_account with
      | none => simp [hDA, hCA, List.find?]
      | some creditAccount =>
        by_cases hSame : r.debit_account = r.credit_account
        · simp [hDA, hCA, hSame, List.find?]
        · by_cases hCur : debitAccount.currency ≠ creditAccount.currency
          · simp [hDA, hCA, hSame, hCur, List.find?]
          · by_cases hIC : r.currency ≠ some debitAccount.currency
            · simp [hDA, hCA, hSame, hCur, hIC, List.find?]
            · rcases dateCheck_shape r.execute_by with hDt | ⟨rsnT, hDt⟩
              swap
              · simp [hDA, hCA, hSame, hCur, hIC, hDt, ruleOfVResult, List.find?]
              · by_cases hFut : (optTruthy r.execute_by &&
                    isDateInFuture (r.execute_by.getD "") today) = true
                · simp [hDA, hCA, hSame, hCur, hIC, hDt, hFut, ruleOfVResult, List.find?]
                · by_cases hBal : debitAccount.balance < r.amount.getD 0
                  · simp [hDA, hCA, hSame, hCur, hIC, hDt, hFut, hBal, ruleOfVResult, List.find?]
                  · simp [hDA, hCA, hSame, hCur, hIC, hDt, hFut, hBal, ruleOfVResult, List.find?]

/-! ## Parser shape helpers -/

/-- Every result of parseDebitFormat carries status failed; its code is
empty or one of the three syntax codes; an empty code comes with an
empty reason. -/
theorem parseDebitFormat_shape (tokens : List String) :
    (parseDebitFormat tokens).status = "failed" ∧
    ((parseDebitFormat tokens).status_code = "" ∨ (parseDebitFormat tokens).status_code = "SY01" ∨
      (parseDebitFormat tokens).status_code = "SY02" ∨
      (parseDebitFormat tokens).status_code = "SY03") ∧
    ((parseDebitFormat tokens).status_code = "" → (parseDebitFormat tokens).status_reason = "") := by
  unfold parseDebitFormat
  repeat' split
  all_goals try simp [debitResult0]
  all_goals repeat' split
  all_goals simp [debitResult0]

/-- Every result of parseCreditFormat carries status failed; its code is
empty or one of the three syntax codes; an empty code comes with an
empty reason. -/
theorem parseCreditFormat_shape (tokens : List String) :
    (parseCreditFormat tokens).status = "failed" ∧
    ((parseCreditFormat tokens).status_code = "" ∨ (parseCreditFormat tokens).status_code = "SY01" ∨
      (parseCreditFormat tokens).status_code = "SY02" ∨
      (parseCreditFormat tokens).status_code = "SY03") ∧
    ((parseCreditFormat tokens).status_code = "" → (parseCreditFormat tokens).status_reason = "") := by
  unfold parseCreditFormat
  repeat' split
  all_goals try simp [creditResult0]
  all_goals repeat' split
  all_goals simp [creditResult0]

/-- Every result of parseInstruction carries status failed; its code is
empty or one of the three syntax codes; an empty code comes with an
empty reason. -/
theorem parseInstruction_shape (s : String) :
    (parseInstruction s).status = "failed" ∧
    ((parseInstruction s).status_code = "" ∨ (parseInstruction s).status_code = "SY01" ∨
      (parseInstruction s).status_code = "SY02" ∨
      (parseInstruction s).status_code = "SY03") ∧
    ((parseInstruction s).status_code = "" → (parseInstruction s).status_reason = "") := by
  unfold parseInstruction
  dsimp only
  repeat' split
  all_goals first
    | exact parseDebitFormat_shape _
    | exact parseCreditFormat_shape _
    | simp [parseErrorResult]

/-! ## Claim theorems -/

/-- Request of the flagship scenario: DEBIT 30 USD from account a (230
USD) to account b (300 USD). -/
def c1Request : RequestData :=
  { instruction := "DEBIT 30 USD FROM ACCOUNT a FOR CREDIT TO ACCOUNT b"
    accounts := [{ account_id := "a", balance := 230, currency := "USD" },
                 { account_id := "b", balance := 300, currency := "USD" }] }

/-- C1: on the scenario instruction the pipeline reports AP00 and
successful, but the attached account view is empty instead of listing
account a at balance 200 followed by account b at balance 330: the
executor filters the snapshot by an id property that snapshot accounts
do not carry, so no account is ever selected. -/
theorem scenario_debit30_result :
    (processPaymentInstruction ⟨2026, 10, 11⟩ c1Request).record.status_code = "AP00" ∧
    (processPaymentInstruction ⟨2026, 10, 11⟩ c1Request).record.status = "successful" ∧
    (processPaymentInstruction ⟨2026, 10, 11⟩ c1Request).accounts = [] := by
  decide

/-- Validated record of the executor order-preservation test: DEBIT 30
USD from a to b, already classified successful. -/
def c2Record : Parsed :=
  { type := some "DEBIT"
    amount := some 30
    currency := some "USD"
    debit_account := some "a"
    credit_account := some "b"
    execute_by := none
    status := "successful"
    status_reason := "Transaction executed successfully"
    status_code := "AP00" }

/-- C2: with both referenced accounts present in the snapshot (listed
credit-first), the executor returns an empty view rather than the
debit-first projection with account_id fields: it matches and projects
by the absent id property, and even with matching identifiers its
filter would keep snapshot order rather than debit-first order. -/
theorem executor_view_drops_snapshot_accounts :
    executeTransaction c2Record
        [{ account_id := "b", balance := 300, currency := "USD" },
         { account_id := "a", balance := 200, currency := "USD" }] =
      { record := c2Record, accounts := [] } := by
  decide

/-- C3: the state-passing form of the executor leaves the caller
snapshot exactly as supplied: the source allocates fresh view objects
and never assigns to an input account, so every original balance is
retained and all updates live only on the returned copies. -/
theorem executeTransaction_leaves_snapshot_unchanged (validatedData : Parsed)
    (accounts : List Account) :
    (executeTransactionS validatedData accounts).2 = accounts := rfl

/-- C4: a record with a non-empty status_code passes through the
validator unchanged, and the executor preserves every record field,
only attaching the accounts view; no later stage overwrites a terminal
code. -/
theorem terminal_record_passes_through (today : Date) (r : Parsed) (accounts : List Account)
    (h : r.status_code ≠ "") :
    validateInstruction today r accounts = r ∧ (executeTransaction r accounts).record = r := by
  constructor
  · unfold validateInstruction
    rw [if_pos h]
  · unfold executeTransaction
    dsimp only
    split <;> rfl

/-- Terminal parser output used to check the pass-through theorem. -/
def c4Record : Parsed :=
  { parseErrorResult with
    status_code := "SY03"
    status_reason := "Malformed instruction: unable to parse" }

/-- Pass-through theorem applied at a concrete terminal record and
snapshot. -/
theorem terminal_record_passes_through_check :
    validateInstruction ⟨2026, 1, 1⟩ c4Record
        [{ account_id := "a", balance := 230, currency := "USD" }] = c4Record ∧
    (executeTransaction c4Record
        [{ account_id := "a", balance := 230, currency := "USD" }]).record = c4Record :=
  terminal_record_passes_through ⟨2026, 1, 1⟩ c4Record
    [{ account_id := "a", balance := 230, currency := "USD" }] (by decide)

/-- C5: the validator equals the ordered-rule-list presentation (fixed
order, first-failure short-circuit), and in particular a non-terminal
record with a negative amount and an unsupported currency is rejected
with AM01, not CU02. -/
theorem validator_rule_order_and_am01_precedence :
    (∀ (today : Date) (r : Parsed) (accounts : List Account),
      validateInstruction today r accounts = runValidatorSpec today r accounts) ∧
    (∀ (today : Date) (r : Parsed) (accounts : List Account) (q : ℚ),
      r.status_code = "" → r.amount = some q → q < 0 →
      validateCurrency r.currency ≠ .valid →
      (validateInstruction today r accounts).status_code = "AM01") := by
  constructor
  · exact validateInstruction_eq_runValidatorSpec
  · intro today r accounts q h0 hAmt hNeg _hCur
    have hInv : validateAmount r.amount =
        VResult.invalid "AM01" "Amount must be a positive integer" := by
      rw [hAmt]
      simp only [validateAmount]
      rw [if_pos (Or.inr (le_of_lt hNeg))]
    unfold validateInstruction
    rw [if_neg (by simp [h0])]
    simp [hInv, failWith]

/-- Non-terminal record violating both the amount rule and the
currency rule. -/
def c5Record : Parsed :=
  { type := some "DEBIT"
    amount := some (-100)
    currency := some "EUR"
    debit_account := some "a"
    credit_account := some "b"
    execute_by := none
    status := "failed"
    status_reason := ""
    status_code := "" }

/-- Precedence theorem applied at a concrete record with negative
amount and unsupported currency: the code is AM01. -/
theorem validator_rule_order_and_am01_precedence_check :
    (validateInstruction ⟨2026, 1, 1⟩ c5Record []).status_code = "AM01" :=
  validator_rule_order_and_am01_precedence.2 ⟨2026, 1, 1⟩ c5Record [] (-100) rfl rfl
    (by decide) (by decide)

/-- C6: the parser is a total function on strings: for every input the
result is a record with status failed whose code is empty (structural
success, validation still to run) or one of the three syntax codes
SY01, SY02, SY03; no exception reaches the caller, and the catch-all
SY03 branch of the source is unreachable for string inputs. -/
theorem parseInstruction_total_and_syntax_codes (s : String) :
    (parseInstruction s).status = "failed" ∧
    ((parseInstruction s).status_code = "" ∨ (parseInstruction s).status_code = "SY01" ∨
      (parseInstruction s).status_code = "SY02" ∨ (parseInstruction s).status_code = "SY03") :=
  ⟨(parseInstruction_shape s).1, (parseInstruction_shape s).2.1⟩

/-- C7: for a non-terminal record passing rules 1 through 10, a
future-dated instruction (execute_by strictly after the current UTC
calendar date) skips the funds check and terminates pending with AP02;
otherwise the funds check runs and fails with AC01 exactly when the
debit account balance is below the requested amount. -/
theorem future_dated_skips_funds_check (today : Date) (r : Parsed) (accounts : List Account)
    (debitAccount creditAccount : Account)
    (h0 : r.status_code = "")
    (hA : validateAmount r.amount = .valid)
    (hC : validateCurrency r.currency = .valid)
    (hD : validateAccountIdFormat r.debit_account = .valid)
    (hE : validateAccountIdFormat r.credit_account = .valid)
    (hDA : accountsMapGet accounts r.debit_account = some debitAccount)
    (hCA : accountsMapGet accounts r.credit_account = some creditAccount)
    (hSame : r.debit_account ≠ r.credit_account)
    (hCur : debitAccount.currency = creditAccount.currency)
    (hIC : r.currency = some debitAccount.currency)
    (hDt : (if optTruthy r.execute_by then validateDateFormat (r.execute_by.getD "")
            else VResult.valid) = .valid) :
    ((optTruthy r.execute_by && isDateInFuture (r.execute_by.getD "") today) = true →
      (validateInstruction today r accounts).status = "pending" ∧
      (validateInstruction today r accounts).status_code = "AP02") ∧
    ((optTruthy r.execute_by && isDateInFuture (r.execute_by.getD "") today) = false →
      (((validateInstruction today r accounts).status_code = "AC01") ↔
        debitAccount.balance < r.amount.getD 0)) := by
  unfold validateInstruction
  rw [if_neg (by simp [h0])]
  simp only [hA, hC, hD, hE, hDA, hCA, hDt]
  rw [if_neg hSame, if_neg (by simp [hCur]), if_neg (by simp [hIC])]
  constructor
  · intro hFut
    simp [hFut]
  · intro hFut
    by_cases hBal : debitAccount.balance < r.amount.getD 0
    · simp [hFut, hBal, failWith]
    · simp [hFut, hBal, failWith]

/-- Non-terminal future-dated record of the pending scenario. -/
def c7Record : Parsed :=
  { type := some "CREDIT"
    amount := some 450
    currency := some "NGN"
    debit_account := some "acc-001"
    credit_account := some "acc-002"
    execute_by := some "2026-02-21"
    status := "failed"
    status_reason := ""
    status_code := "" }

/-- Snapshot of the pending scenario. -/
def c7Accounts : List Account :=
  [{ account_id := "acc-001", balance := 1000, currency := "NGN" },
   { account_id := "acc-002", balance := 500, currency := "NGN" }]

/-- Funds-skip theorem applied at the concrete future-dated record:
pending with AP02. -/
theorem future_dated_skips_funds_check_check :
    (validateInstruction ⟨2025, 8, 19⟩ c7Record c7Accounts).status = "pending" ∧
    (validateInstruction ⟨2025, 8, 19⟩ c7Record c7Accounts).status_code = "AP02" :=
  (future_dated_skips_funds_check ⟨2025, 8, 19⟩ c7Record c7Accounts
      { account_id := "acc-001", balance := 1000, currency := "NGN" }
      { account_id := "acc-002", balance := 500, currency := "NGN" }
      rfl (by decide) (by decide) (by decide) (by decide) (by decide) (by decide)
      (by decide) rfl rfl (by decide)).1 (by decide)

/-- Validated successful record of the first executor unit test. -/
def c8Record : Parsed :=
  { type := some "DEBIT"
    amount := some 50
    currency := some "USD"
    debit_account := some "a"
    credit_account := some "b"
    execute_by := none
    status := "successful"
    status_reason := "Transaction executed successfully"
    status_code := "AP00" }

/-- Snapshot of the first executor unit test. -/
def c8Accounts : List Account :=
  [{ account_id := "a", balance := 200, currency := "USD" },
   { account_id := "b", balance := 300, currency := "USD" }]

/-- C8: a successful result whose account view is empty: there is no
entry for the debit or credit account at all, so the round-trip
balance equations promised for successful results have no witnessing
entries; the balance arithmetic in the executor is unreachable because
the role comparison reads the absent id property. -/
theorem successful_result_lacks_round_trip_view :
    (executeTransaction c8Record c8Accounts).record.status = "successful" ∧
    (executeTransaction c8Record c8Accounts).accounts = [] := by
  decide

/-- C9: on a non-terminal record the validator always produces a
non-empty code from the fixed set, with status successful exactly for
AP00, pending exactly for AP02, and failed for every other code. -/
theorem validator_empty_code_terminal (today : Date) (r : Parsed) (accounts : List Account)
    (h : r.status_code = "") :
    (validateInstruction today r accounts).status_code ≠ "" ∧
    ((validateInstruction today r accounts).status_code = "AP00" ∨
      (validateInstruction today r accounts).status_code = "AP02" ∨
      (validateInstruction today r accounts).status_code = "AM01" ∨
      (validateInstruction today r accounts).status_code = "CU02" ∨
      (validateInstruction today r accounts).status_code = "AC04" ∨
      (validateInstruction today r accounts).status_code = "AC03" ∨
      (validateInstruction today r accounts).status_code = "AC02" ∨
      (validateInstruction today r accounts).status_code = "CU01" ∨
      (validateInstruction today r accounts).status_code = "DT01" ∨
      (validateInstruction today r accounts).status_code = "AC01") ∧
    ((validateInstruction today r accounts).status = "successful" ↔
      (validateInstruction today r accounts).status_code = "AP00") ∧
    ((validateInstruction today r accounts).status = "pending" ↔
      (validateInstruction today r accounts).status_code = "AP02") ∧
    ((validateInstruction today r accounts).status_code ≠ "AP00" →
      (validateInstruction today r accounts).status_code ≠ "AP02" →
      (validateInstruction today r accounts).status = "failed") := by
  unfold validateInstruction
  rw [if_neg (by simp [h])]
  rcases validateAmount_shape r.amount with hA | ⟨rsnA, hA⟩
  swap
  · simp [hA, failWith]
  · simp only [hA]
    rcases validateCurrency_shape r.currency with hC | ⟨rsnC, hC⟩
    swap
    · simp [hC, failWith]
    · simp only [hC]
      rcases validateAccountIdFormat_shape r.debit_account with hD | ⟨rsnD, hD⟩
      swap
      · simp [hD, failWith]
      · simp only [hD]
        rcases validateAccountIdFormat_shape r.credit_account with hE | ⟨rsnE, hE⟩
        swap
        · simp [hE, failWith]
        · simp only [hE]
          cases hDA : accountsMapGet accounts r.debit_account with
          | none => simp [failWith]
          | some debitAccount =>
            cases hCA : accountsMapGet accounts r.credit_account with
            | none => simp [failWith]
            | some creditAccount =>
              dsimp only
              by_cases hSame : r.debit_account = r.credit_account
              · simp [hSame, failWith]
              · rw [if_neg hSame]
                by_cases hCur : debitAccount.currency ≠ creditAccount.currency
                · simp [hCur, failWith]
                · rw [if_neg hCur]
                  by_cases hIC : r.currency ≠ some debitAccount.currency
                  · simp [hIC, failWith]
                  · rw [if_neg hIC]
                    rcases dateCheck_shape r.execute_by with hDt | ⟨rsnT, hDt⟩
                    swap
                    · simp [hDt, failWith]
                    · simp only [hDt]
                      by_cases hFut : (optTruthy r.execute_by &&
                          isDateInFuture (r.execute_by.getD "") today) = true
                      · simp [hFut, failWith]
                      · by_cases hBal : debitAccount.balance < r.amount.getD 0
                        · simp [hFut, hBal, failWith]
                        · simp [hFut, hBal, failWith]

/-- Non-terminal record used to check the terminality theorem. -/
def c9Record : Parsed :=
  { type := some "DEBIT"
    amount := some 30
    currency := some "USD"
    debit_account := some "a"
    credit_account := some "b"
    execute_by := none
    status := "failed"
    status_reason := ""
    status_code := "" }

/-- Terminality theorem applied at a concrete non-terminal record. -/
theorem validator_empty_code_terminal_check :
    (validateInstruction ⟨2026, 10, 11⟩ c9Record
        [{ account_id := "a", balance := 230, currency := "USD" },
         { account_id := "b", balance := 300, currency := "USD" }]).status_code ≠ "" :=
  (validator_empty_code_terminal ⟨2026, 10, 11⟩ c9Record
      [{ account_id := "a", balance := 230, currency := "USD" },
       { account_id := "b", balance := 300, currency := "USD" }] rfl).1

/-- C10: a structurally valid instruction (empty status_code, the
non-terminal signal) parses to a record whose status field is
nonetheless failed, with an empty status_reason: the empty code alone
marks that validation must run next. -/
theorem parse_success_failed_status_empty_code (s : String)
    (h : (parseInstruction s).status_code = "") :
    (parseInstruction s).status = "failed" ∧ (parseInstruction s).status_reason = "" :=
  ⟨(parseInstruction_shape s).1, (parseInstruction_shape s).2.2 h⟩

/-- Non-terminal-parse theorem applied at a concrete structurally valid
instruction. -/
theorem parse_success_failed_status_empty_code_check :
    (parseInstruction "DEBIT 30 USD FROM ACCOUNT a FOR CREDIT TO ACCOUNT b").status = "failed" ∧
    (parseInstruction "DEBIT 30 USD FROM ACCOUNT a FOR CREDIT TO ACCOUNT b").status_reason = "" :=
  parse_success_failed_status_empty_code _ (by decide)

end PaymentInstr
